import Mathlib

/-!
Verification development for the spaceweatherbot repository (two Python
sources: a Discord adapter `spaceweatherbot.py` and a Slack adapter
`spaceweatherbot_slack.py`).  Each adapter is shallowly embedded in its own
namespace; helpers shared by the embedding (Python truthiness on optional
strings, record shapes of the upstream JSON feed) live at the top level.

Machine conventions of the embedding:
* a JSON field read with `dict.get(k)` is an `Option String` (`none` = key
  absent);
* Python `a or b` on such values is `pyOr` / `pyOrS` (the empty string is
  falsy, like `None`);
* an f-string interpolation of a possibly-`None` value is `fStr`
  (`None` renders as the four characters "None");
* Python `set` objects are `Finset`s; iteration over `list(s)` is an
  arbitrary duplicate-free snapshot list of the set;
* a network send that can raise is modelled by a boolean outcome function
  over destinations, and the `try/except` structure around it is encoded in
  the fold that performs the fanout;
* the numeric magnitude produced by `float(...)` on a matched decimal
  numeral is modelled exactly as a rational number.
-/

namespace SpaceWeather

/-- Python `a or b` for two optional strings: `None` and `""` are falsy. -/
def pyOr (a b : Option String) : Option String :=
  match a with
  | some s => if s = "" then b else some s
  | none => b

/-- Python `a or b` where `b` is already a plain string. -/
def pyOrS (a : Option String) (b : String) : String :=
  match a with
  | some s => if s = "" then b else s
  | none => b

/-- f-string rendering of a possibly-`None` string value. -/
def fStr : Option String → String
  | none => "None"
  | some s => s

/-- The flare-record fields that the two bots read from the
`xray-flares-latest` feed entry (`dict.get`, so every field is optional). -/
structure FlareRecord where
  max_class : Option String
  current_class : Option String
  max_time : Option String
  time_tag : Option String
  begin_time : Option String
  satellite : Option String
deriving DecidableEq, Repr

/-- The alert-record fields read by `fetch_alerts`. -/
structure AlertRecord where
  message : Option String
  summary : Option String
deriving DecidableEq, Repr

/-- A forecast entry as read by `fetch_flare_forecast` (its fields are not
inspected by any fetch-level claim, only the list structure is). -/
structure ForecastEntry where
  date : Option String
deriving DecidableEq, Repr

/-- The user-visible reply of a subscribe/unsubscribe command (each adapter
renders it as its own message string; the texts themselves are
formatting). -/
inductive CmdReply
  | subscribedOk
  | unsubscribedOk
  | notSubscribed
deriving DecidableEq, Repr

/-- Result of `http.get_json` as seen by the fetchers: either the transport
raised (`error`), or it produced a JSON value that is a list of records or
some non-list payload. -/
inductive FetchPayload (α : Type)
  | list (xs : List α)
  | nonList
deriving DecidableEq

/-- Numeric value of a digit run, as `int(digits)`. -/
def digitsVal (ds : List Char) : ℕ :=
  ds.foldl (fun n c => 10 * n + (c.toNat - 48)) 0

namespace Discord

/-- The numeral part of the regex `([CXMB])(\d+(?:\.\d+)?)` applied after the
class letter `c`: one or more digits, then optionally a dot followed by one
or more digits (with regex backtracking: a trailing dot without digits is
dropped, the match still succeeds). -/
def parseNum (c : Char) (rest : List Char) : Option (Char × ℚ) :=
  let intDs := rest.takeWhile Char.isDigit
  let rest1 := rest.dropWhile Char.isDigit
  if intDs = [] then none
  else
    match rest1 with
    | '.' :: rest2 =>
      let fracDs := rest2.takeWhile Char.isDigit
      if fracDs = [] then some (c, (digitsVal intDs : ℚ))
      else some (c, (digitsVal intDs : ℚ) + (digitsVal fracDs : ℚ) / (10 : ℚ) ^ fracDs.length)
    | _ => some (c, (digitsVal intDs : ℚ))

/-- `re.match(r"([CXMB])(\d+(?:\.\d+)?)", s.upper())` on the character list
of the uppercased input: anchored at the start. -/
def parseClassChars : List Char → Option (Char × ℚ)
  | [] => none
  | c :: rest =>
    if c = 'C' ∨ c = 'X' ∨ c = 'M' ∨ c = 'B' then parseNum c rest else none

/-- `parse_flare_class` from `spaceweatherbot.py`: parse a flare class
string such as "M2.5" into its class letter and magnitude; the Python
`(None, None)` result is `none` here. -/
def parse_flare_class (s : String) : Option (Char × ℚ) :=
  parseClassChars (s.toList.map Char.toUpper)

/-- The class letter component of the parse (`class_letter, _ = ...`). -/
def letterOf (s : String) : Option Char :=
  (parse_flare_class s).map Prod.fst

/-- `class_letter in ("M", "X")` applied to a parsed class letter
(`None in ("M","X")` is false in Python). -/
def qualifies (letter : Option Char) : Bool :=
  match letter with
  | some cl => cl = 'M' || cl = 'X'
  | none => false

/-- `is_m_or_x_class` from `spaceweatherbot.py`. -/
def is_m_or_x_class (s : String) : Bool :=
  qualifies (letterOf s)

end Discord

namespace Slack

/-- Numeral part of the class regex, as in `spaceweatherbot_slack.py`
(textually the same function as the Discord one). -/
def parseNum (c : Char) (rest : List Char) : Option (Char × ℚ) :=
  let intDs := rest.takeWhile Char.isDigit
  let rest1 := rest.dropWhile Char.isDigit
  if intDs = [] then none
  else
    match rest1 with
    | '.' :: rest2 =>
      let fracDs := rest2.takeWhile Char.isDigit
      if fracDs = [] then some (c, (digitsVal intDs : ℚ))
      else some (c, (digitsVal intDs : ℚ) + (digitsVal fracDs : ℚ) / (10 : ℚ) ^ fracDs.length)
    | _ => some (c, (digitsVal intDs : ℚ))

/-- Anchored match of `([CXMB])(\d+(?:\.\d+)?)` for the Slack adapter. -/
def parseClassChars : List Char → Option (Char × ℚ)
  | [] => none
  | c :: rest =>
    if c = 'C' ∨ c = 'X' ∨ c = 'M' ∨ c = 'B' then parseNum c rest else none

/-- `parse_flare_class` from `spaceweatherbot_slack.py`. -/
def parse_flare_class (s : String) : Option (Char × ℚ) :=
  parseClassChars (s.toList.map Char.toUpper)

/-- The class letter component of the parse. -/
def letterOf (s : String) : Option Char :=
  (parse_flare_class s).map Prod.fst

/-- `class_letter in ("M", "X")` on the parsed letter. -/
def qualifies (letter : Option Char) : Bool :=
  match letter with
  | some cl => cl = 'M' || cl = 'X'
  | none => false

/-- `is_m_or_x_class` from `spaceweatherbot_slack.py`. -/
def is_m_or_x_class (s : String) : Bool :=
  qualifies (letterOf s)

end Slack

/-- The two adapters define textually identical classifiers. -/
theorem parse_flare_class_eq : Slack.parse_flare_class = Discord.parse_flare_class := rfl

theorem is_m_or_x_class_eq : Slack.is_m_or_x_class = Discord.is_m_or_x_class := rfl

/-- Every branch of the numeral parser yields the given letter and a
non-negative magnitude. -/
theorem Discord.parseNum_shape (c : Char) (rest : List Char) :
    Discord.parseNum c rest = none ∨
    ∃ q : ℚ, Discord.parseNum c rest = some (c, q) ∧ 0 ≤ q := by
  unfold Discord.parseNum
  dsimp only
  split_ifs with h1
  · exact Or.inl rfl
  · split
    · split_ifs
      · exact Or.inr ⟨_, rfl, by positivity⟩
      · exact Or.inr ⟨_, rfl, by positivity⟩
    · exact Or.inr ⟨_, rfl, by positivity⟩

/-- C7: for every input string the flare-class parser either returns a
letter in {B, C, M, X} with a non-negative magnitude or the none variant;
it is a total function (the embedded code has no failing path).  Stated for
both adapters (their parsers are the same function). -/
theorem C7_parse_flare_class_total (s : String) :
    (Discord.parse_flare_class s = none ∨
      ∃ c q, Discord.parse_flare_class s = some (c, q) ∧
        (c = 'B' ∨ c = 'C' ∨ c = 'M' ∨ c = 'X') ∧ 0 ≤ q) ∧
    Slack.parse_flare_class s = Discord.parse_flare_class s := by
  refine ⟨?_, rfl⟩
  unfold Discord.parse_flare_class
  cases hl : s.toList.map Char.toUpper with
  | nil => exact Or.inl rfl
  | cons c rest =>
    rw [Discord.parseClassChars]
    split_ifs with hc
    · rcases Discord.parseNum_shape c rest with h | ⟨q, hq, hq0⟩
      · exact Or.inl h
      · exact Or.inr ⟨c, q, hq, by tauto, hq0⟩
    · exact Or.inl rfl

/-- C8: the qualifying predicate on a parsed class letter is true exactly
for M and X; false on B, C and on the none variant; and the adapters agree,
with `is_m_or_x_class` literally the qualifier after the parse. -/
theorem C8_qualifies_iff_M_or_X :
    (∀ l : Option Char, Discord.qualifies l = true ↔ (l = some 'M' ∨ l = some 'X')) ∧
    Discord.qualifies (some 'B') = false ∧
    Discord.qualifies (some 'C') = false ∧
    Discord.qualifies (some 'M') = true ∧
    Discord.qualifies (some 'X') = true ∧
    Discord.qualifies none = false ∧
    (∀ l, Slack.qualifies l = Discord.qualifies l) ∧
    (∀ s, Discord.is_m_or_x_class s = Discord.qualifies (Discord.letterOf s)) := by
  refine ⟨?_, by decide, by decide, by decide, by decide, rfl, fun l => rfl, fun s => rfl⟩
  intro l
  cases l with
  | none => simp [Discord.qualifies]
  | some cl =>
    simp only [Discord.qualifies, Bool.or_eq_true, decide_eq_true_eq, Option.some.injEq]

namespace Discord

/-- `flare.get("max_class") or flare.get("current_class")` in
`FlareBot.flare_poll_task`. -/
def flareClassOf (f : FlareRecord) : Option String :=
  pyOr f.max_class f.current_class

/-- `flare.get("max_time") or flare.get("time_tag") or flare.get("begin_time")`. -/
def flareTimeOf (f : FlareRecord) : Option String :=
  pyOr (pyOr f.max_time f.time_tag) f.begin_time

/-- The dedup key built by `flare_id = f"{flare_time}_{flare_class}"`. -/
def flareIdOf (f : FlareRecord) : String :=
  fStr (flareTimeOf f) ++ "_" ++ fStr (flareClassOf f)

/-- The "Peak Class" value that `format_flare_embed` puts in the outbound
embed: `flare.get("max_class") or flare.get("current_class", "Unknown")`. -/
def embedSeverity (f : FlareRecord) : String :=
  pyOrS f.max_class (f.current_class.getD "Unknown")

/-- Accumulator of the fanout loop in `flare_poll_task`: channels for which
`ch.send` was attempted, channels whose send succeeded, and the current
`subscribed_flares` set (mutated by `discard` on a send exception). -/
@[ext]
structure FanoutAcc where
  attempted : List ℕ
  delivered : List ℕ
  subs : Finset ℕ
deriving DecidableEq

/-- One iteration of `for ch_id in list(self.subscribed_flares)`: the send
happens only when `get_channel` resolves to a text channel or thread
(`resolved`); a raising send (`fails`) is caught and the channel id is
discarded from the subscription set. -/
def fanoutStep (resolved fails : ℕ → Bool) (acc : FanoutAcc) (d : ℕ) : FanoutAcc :=
  if resolved d then
    if fails d then ⟨acc.attempted ++ [d], acc.delivered, acc.subs.erase d⟩
    else ⟨acc.attempted ++ [d], acc.delivered ++ [d], acc.subs⟩
  else acc

/-- The whole fanout loop over a snapshot list of the subscription set. -/
def fanout (snapshot : List ℕ) (subs : Finset ℕ) (resolved fails : ℕ → Bool) : FanoutAcc :=
  snapshot.foldl (fanoutStep resolved fails) ⟨[], [], subs⟩

/-- Mutable state of `FlareBot` used by the flare poll task. -/
structure PollState where
  seen_flare_ids : Finset String
  subscribed_flares : Finset ℕ
deriving DecidableEq

/-- Observable outcome of one execution of the poll task body. -/
structure PollResult where
  seen_flare_ids : Finset String
  subscribed_flares : Finset ℕ
  deliveries : List (ℕ × String)
deriving DecidableEq

/-- One cycle of `FlareBot.flare_poll_task`.  `fetched` is what
`fetch_latest_flare` returned; `buildOk` is whether
`format_flare_embed` returned normally (a raise is caught by the outer
`try`, ending the cycle); `snapshot` is the iteration order of
`list(self.subscribed_flares)`; a delivery is recorded as the pair of the
channel id and the embed's severity ("Peak Class") field. -/
def flare_poll_task (st : PollState) (fetched : Option FlareRecord) (buildOk : Bool)
    (snapshot : List ℕ) (resolved fails : ℕ → Bool) : PollResult :=
  if st.subscribed_flares = ∅ then ⟨st.seen_flare_ids, st.subscribed_flares, []⟩
  else
    match fetched with
    | none => ⟨st.seen_flare_ids, st.subscribed_flares, []⟩
    | some flare =>
      if ¬ is_m_or_x_class (pyOrS (flareClassOf flare) "") then
        ⟨st.seen_flare_ids, st.subscribed_flares, []⟩
      else if flareIdOf flare ∈ st.seen_flare_ids then
        ⟨st.seen_flare_ids, st.subscribed_flares, []⟩
      else if buildOk then
        let r := fanout snapshot st.subscribed_flares resolved fails
        ⟨insert (flareIdOf flare) st.seen_flare_ids, r.subs,
          r.delivered.map (fun d => (d, embedSeverity flare))⟩
      else
        ⟨insert (flareIdOf flare) st.seen_flare_ids, st.subscribed_flares, []⟩

theorem fanout_foldl_attempted (resolved fails : ℕ → Bool) (l : List ℕ) :
    ∀ acc : FanoutAcc,
      (l.foldl (fanoutStep resolved fails) acc).attempted =
        acc.attempted ++ l.filter (fun d => resolved d) := by
  induction l with
  | nil => intro acc; simp
  | cons d t ih =>
    intro acc
    rw [List.foldl_cons, ih, List.filter_cons]
    unfold fanoutStep
    by_cases hr : resolved d
    · by_cases hf : fails d <;> simp [hr, hf]
    · simp [hr]

theorem fanout_foldl_delivered (resolved fails : ℕ → Bool) (l : List ℕ) :
    ∀ acc : FanoutAcc,
      (l.foldl (fanoutStep resolved fails) acc).delivered =
        acc.delivered ++ l.filter (fun d => resolved d && !fails d) := by
  induction l with
  | nil => intro acc; simp
  | cons d t ih =>
    intro acc
    rw [List.foldl_cons, ih, List.filter_cons]
    unfold fanoutStep
    by_cases hr : resolved d
    · by_cases hf : fails d <;> simp [hr, hf]
    · simp [hr]

theorem fanout_foldl_subs (resolved fails : ℕ → Bool) (l : List ℕ) :
    ∀ acc : FanoutAcc,
      (l.foldl (fanoutStep resolved fails) acc).subs =
        acc.subs \ (l.filter (fun d => resolved d && fails d)).toFinset := by
  induction l with
  | nil => intro acc; simp
  | cons d t ih =>
    intro acc
    rw [List.foldl_cons, ih, List.filter_cons]
    unfold fanoutStep
    by_cases hr : resolved d
    · by_cases hf : fails d
      · simp only [hr, hf, Bool.and_self, if_true, List.toFinset_cons]
        rw [Finset.erase_eq, sdiff_sdiff, Finset.insert_eq, Finset.sup_eq_union]
      · simp [hr, hf]
    · simp [hr]

/-- With every channel resolvable and every send succeeding, the fanout
delivers to exactly the snapshot and leaves the subscription set intact. -/
theorem fanout_all_ok (snapshot : List ℕ) (subs : Finset ℕ) :
    fanout snapshot subs (fun _ => true) (fun _ => false) =
      ⟨snapshot, snapshot, subs⟩ := by
  unfold fanout
  refine FanoutAcc.ext ?_ ?_ ?_ <;>
    simp [fanout_foldl_attempted, fanout_foldl_delivered, fanout_foldl_subs]

/-- Mutable state of `FlareBot` used by the daily summary task. -/
structure DailyState where
  last_daily_date : Option String
  subscribed_daily : Finset ℕ
deriving DecidableEq

/-- Observable outcome of one tick of the daily summary task.  `fired` is
true exactly when the tick reached the build-and-fanout branch (which is
also exactly when it wrote the `_last_daily_date` marker). -/
structure DailyResult where
  last_daily_date : Option String
  subscribed_daily : Finset ℕ
  deliveries : List ℕ
  fired : Bool
deriving DecidableEq

/-- One tick of `FlareBot.daily_summary_task`.  `hour`/`minute` are the
local (America/New_York) wall-clock reading, `today` the local date string;
the code tests `now_est.hour == 13 and now_est.minute < 5`, updates the
marker before building, and a raising `build_daily_summary_embed`
(`buildOk = false`) is caught by the outer `try` after the marker write. -/
def daily_summary_task (st : DailyState) (hour minute : ℕ) (today : String)
    (buildOk : Bool) (snapshot : List ℕ) (resolved fails : ℕ → Bool) : DailyResult :=
  if st.subscribed_daily = ∅ then ⟨st.last_daily_date, st.subscribed_daily, [], false⟩
  else if hour = 13 ∧ minute < 5 then
    if st.last_daily_date = some today then ⟨st.last_daily_date, st.subscribed_daily, [], false⟩
    else if buildOk then
      let r := fanout snapshot st.subscribed_daily resolved fails
      ⟨some today, r.subs, r.delivered, true⟩
    else ⟨some today, st.subscribed_daily, [], true⟩
  else ⟨st.last_daily_date, st.subscribed_daily, [], false⟩

/-- `subscribe_flares_cmd` (after the text-channel type guard):
`client.subscribed_flares.add(ch.id)` plus the confirmation reply. -/
def subscribe_flares_cmd (subs : Finset ℕ) (ch : ℕ) : Finset ℕ × CmdReply :=
  (insert ch subs, CmdReply.subscribedOk)

/-- `unsubscribe_flares_cmd`: discard only when the channel is a member,
otherwise reply that the channel was not subscribed. -/
def unsubscribe_flares_cmd (subs : Finset ℕ) (ch : ℕ) : Finset ℕ × CmdReply :=
  if ch ∈ subs then (subs.erase ch, CmdReply.unsubscribedOk)
  else (subs, CmdReply.notSubscribed)

/-- `fetch_latest_flare`: first element of a non-empty list payload,
otherwise `None`; any raise inside the `try` yields `None`. -/
def fetch_latest_flare (r : Except Unit (FetchPayload FlareRecord)) : Option FlareRecord :=
  match r with
  | Except.error _ => none
  | Except.ok (FetchPayload.list (x :: _)) => some x
  | Except.ok (FetchPayload.list []) => none
  | Except.ok FetchPayload.nonList => none

/-- `fetch_flare_forecast`: the first three entries of a list payload,
otherwise the empty list; any raise yields the empty list. -/
def fetch_flare_forecast (r : Except Unit (FetchPayload ForecastEntry)) : List ForecastEntry :=
  match r with
  | Except.error _ => []
  | Except.ok (FetchPayload.list xs) => xs.take 3
  | Except.ok FetchPayload.nonList => []

/-- Python `needle in hay` substring test, on the character list of the
lowercased haystack. -/
def containsSub (hay : List Char) (needle : String) : Bool :=
  decide (needle.toList <:+: hay)

/-- The flare/x-ray keyword filter applied by `fetch_alerts` to
`(a.get("message") or a.get("summary") or "").lower()`. -/
def alertMentionsFlare (a : AlertRecord) : Bool :=
  let msg := (pyOrS a.message (pyOrS a.summary "")).toList.map Char.toLower
  containsSub msg "flare" || containsSub msg "x-ray" || containsSub msg "xray"

/-- `fetch_alerts`: keyword-filter a list payload and keep the last `limit`
entries (`flare_alerts[-limit:]`; for `limit = 0` Python slicing keeps the
whole list); non-list payloads, raises and empty results give `[]`. -/
def fetch_alerts (limit : ℕ) (r : Except Unit (FetchPayload AlertRecord)) : List AlertRecord :=
  match r with
  | Except.error _ => []
  | Except.ok FetchPayload.nonList => []
  | Except.ok (FetchPayload.list arr) =>
    let flare_alerts := arr.filter alertMentionsFlare
    if limit = 0 then flare_alerts
    else flare_alerts.drop (flare_alerts.length - limit)

end Discord

namespace Slack

/-- `flare.get("max_class") or flare.get("current_class")` in
`FlareSlackBot._flare_poll_task`. -/
def flareClassOf (f : FlareRecord) : Option String :=
  pyOr f.max_class f.current_class

/-- `flare.get("max_time") or flare.get("time_tag") or flare.get("begin_time")`. -/
def flareTimeOf (f : FlareRecord) : Option String :=
  pyOr (pyOr f.max_time f.time_tag) f.begin_time

/-- `flare_id = f"{flare_time}_{flare_class}"`. -/
def flareIdOf (f : FlareRecord) : String :=
  fStr (flareTimeOf f) ++ "_" ++ fStr (flareClassOf f)

/-- The "Peak Class" value that `_format_flare_blocks` puts in the outbound
message: `flare.get("max_class") or flare.get("current_class", "Unknown")`. -/
def blocksSeverity (f : FlareRecord) : String :=
  pyOrS f.max_class (f.current_class.getD "Unknown")

/-- Accumulator of the Slack fanout loop: `_send_message` catches
`SlackApiError` internally, so a failed delivery never mutates the
subscription set. -/
structure SFanoutAcc where
  attempted : List String
  delivered : List String
deriving DecidableEq

/-- One iteration of `for ch_id in list(self.subscribed_channels)`. -/
def fanoutStep (fails : String → Bool) (acc : SFanoutAcc) (d : String) : SFanoutAcc :=
  if fails d then ⟨acc.attempted ++ [d], acc.delivered⟩
  else ⟨acc.attempted ++ [d], acc.delivered ++ [d]⟩

/-- The Slack fanout loop over a snapshot list of the subscription set. -/
def fanout (snapshot : List String) (fails : String → Bool) : SFanoutAcc :=
  snapshot.foldl (fanoutStep fails) ⟨[], []⟩

/-- Mutable state of `FlareSlackBot` used by the flare poll task. -/
structure PollState where
  seen_flare_ids : Finset String
  subscribed_channels : Finset String
deriving DecidableEq

/-- Observable outcome of one iteration of the Slack poll loop body. -/
structure PollResult where
  seen_flare_ids : Finset String
  subscribed_channels : Finset String
  deliveries : List (String × String)
deriving DecidableEq

/-- One iteration of `FlareSlackBot._flare_poll_task`: the same
subscribed/fetched/class/dedup guards as the Discord task (as nested `if`s
instead of early returns), `_format_flare_blocks` after the `seen` insert,
then a fanout that never unsubscribes anyone. -/
def flare_poll_task (st : PollState) (fetched : Option FlareRecord) (buildOk : Bool)
    (snapshot : List String) (fails : String → Bool) : PollResult :=
  if st.subscribed_channels = ∅ then ⟨st.seen_flare_ids, st.subscribed_channels, []⟩
  else
    match fetched with
    | none => ⟨st.seen_flare_ids, st.subscribed_channels, []⟩
    | some flare =>
      if ¬ is_m_or_x_class (pyOrS (flareClassOf flare) "") then
        ⟨st.seen_flare_ids, st.subscribed_channels, []⟩
      else if flareIdOf flare ∈ st.seen_flare_ids then
        ⟨st.seen_flare_ids, st.subscribed_channels, []⟩
      else if buildOk then
        ⟨insert (flareIdOf flare) st.seen_flare_ids, st.subscribed_channels,
          (fanout snapshot fails).delivered.map (fun d => (d, blocksSeverity flare))⟩
      else
        ⟨insert (flareIdOf flare) st.seen_flare_ids, st.subscribed_channels, []⟩

/-- Mutable state of `FlareSlackBot` used by the daily summary task. -/
structure DailyState where
  last_daily_date : Option String
  subscribed_daily : Finset String
deriving DecidableEq

/-- Observable outcome of one iteration of the Slack daily loop body. -/
structure DailyResult where
  last_daily_date : Option String
  subscribed_daily : Finset String
  deliveries : List String
  fired : Bool
deriving DecidableEq

/-- One iteration of `FlareSlackBot._daily_summary_task`: the code tests
`now_est.hour == 17 and now_est.minute < 5`, then
`self._last_daily_date != today and self.subscribed_daily`, writes the
marker, builds (a raise is caught by the loop's `try` after the marker
write) and fans out without unsubscribing anyone. -/
def daily_summary_task (st : DailyState) (hour minute : ℕ) (today : String)
    (buildOk : Bool) (snapshot : List String) (fails : String → Bool) : DailyResult :=
  if hour = 17 ∧ minute < 5 then
    if st.last_daily_date ≠ some today ∧ st.subscribed_daily ≠ ∅ then
      if buildOk then
        ⟨some today, st.subscribed_daily, (fanout snapshot fails).delivered, true⟩
      else ⟨some today, st.subscribed_daily, [], true⟩
    else ⟨st.last_daily_date, st.subscribed_daily, [], false⟩
  else ⟨st.last_daily_date, st.subscribed_daily, [], false⟩

/-- `FlareSlackBot._cmd_subscribe_flares`. -/
def subscribe_flares_cmd (subs : Finset String) (ch : String) : Finset String × CmdReply :=
  (insert ch subs, CmdReply.subscribedOk)

/-- `FlareSlackBot._cmd_unsubscribe_flares`. -/
def unsubscribe_flares_cmd (subs : Finset String) (ch : String) : Finset String × CmdReply :=
  if ch ∈ subs then (subs.erase ch, CmdReply.unsubscribedOk)
  else (subs, CmdReply.notSubscribed)

theorem sfanout_foldl_attempted (fails : String → Bool) (l : List String) :
    ∀ acc : SFanoutAcc,
      (l.foldl (fanoutStep fails) acc).attempted = acc.attempted ++ l := by
  induction l with
  | nil => intro acc; simp
  | cons d t ih =>
    intro acc
    rw [List.foldl_cons, ih]
    unfold fanoutStep
    by_cases hf : fails d <;> simp [hf]

theorem sfanout_foldl_delivered (fails : String → Bool) (l : List String) :
    ∀ acc : SFanoutAcc,
      (l.foldl (fanoutStep fails) acc).delivered =
        acc.delivered ++ l.filter (fun d => !fails d) := by
  induction l with
  | nil => intro acc; simp
  | cons d t ih =>
    intro acc
    rw [List.foldl_cons, ih, List.filter_cons]
    unfold fanoutStep
    by_cases hf : fails d <;> simp [hf]

/-- With every send succeeding, the Slack fanout delivers to exactly the
snapshot. -/
theorem sfanout_all_ok (snapshot : List String) :
    fanout snapshot (fun _ => false) = ⟨snapshot, snapshot⟩ := by
  unfold fanout
  have ha := sfanout_foldl_attempted (fun _ => false) snapshot ⟨[], []⟩
  have hd := sfanout_foldl_delivered (fun _ => false) snapshot ⟨[], []⟩
  simp at ha hd
  cases h : snapshot.foldl (fanoutStep fun _ => false) ⟨[], []⟩
  rw [h] at ha hd
  simp_all

end Slack

/-! Helper lemmas characterizing single runs of the embedded tasks. -/

/-- The empty class string never qualifies. -/
theorem is_m_or_x_class_empty : Discord.is_m_or_x_class "" = false := rfl

/-- When the class string qualifies, the severity ("Peak Class") value of
the outbound embed is that same class string. -/
theorem Discord.embedSeverity_eq_class (f : FlareRecord)
    (hq : Discord.is_m_or_x_class (pyOrS (Discord.flareClassOf f) "") = true) :
    Discord.embedSeverity f = pyOrS (Discord.flareClassOf f) "" := by
  have hne : pyOrS (Discord.flareClassOf f) "" ≠ "" := by
    intro h
    rw [h, is_m_or_x_class_empty] at hq
    exact Bool.false_ne_true hq
  unfold Discord.embedSeverity Discord.flareClassOf at *
  rcases f with ⟨mc, cc, _, _, _, _⟩
  rcases mc with _ | t <;> rcases cc with _ | u <;>
    simp_all [pyOr, pyOrS, Option.getD] <;>
    (try split_ifs at hne ⊢) <;> simp_all

/-- Same fact for the Slack block formatter. -/
theorem Slack.blocksSeverity_eq_class (f : FlareRecord)
    (hq : Slack.is_m_or_x_class (pyOrS (Slack.flareClassOf f) "") = true) :
    Slack.blocksSeverity f = pyOrS (Slack.flareClassOf f) "" :=
  Discord.embedSeverity_eq_class f hq

/-- A cycle on a new qualifying flare with every channel resolvable and
every send succeeding: the id is accepted and every snapshot channel gets
one message carrying the embed severity. -/
theorem Discord.flare_poll_task_fires
    (st : Discord.PollState) (flare : FlareRecord) (snapshot : List ℕ)
    (hne : st.subscribed_flares ≠ ∅)
    (hq : Discord.is_m_or_x_class (pyOrS (Discord.flareClassOf flare) "") = true)
    (hnew : Discord.flareIdOf flare ∉ st.seen_flare_ids) :
    Discord.flare_poll_task st (some flare) true snapshot (fun _ => true) (fun _ => false) =
      ⟨insert (Discord.flareIdOf flare) st.seen_flare_ids, st.subscribed_flares,
        snapshot.map (fun d => (d, Discord.embedSeverity flare))⟩ := by
  simp [Discord.flare_poll_task, hne, hq, hnew, Discord.fanout_all_ok]

/-- Any cycle on a qualifying flare that is new accepts the id, whether or
not the embed build succeeds; and with a failing build nothing is sent. -/
theorem Discord.flare_poll_task_accepts
    (st : Discord.PollState) (flare : FlareRecord) (buildOk : Bool) (snapshot : List ℕ)
    (resolved fails : ℕ → Bool)
    (hne : st.subscribed_flares ≠ ∅)
    (hq : Discord.is_m_or_x_class (pyOrS (Discord.flareClassOf flare) "") = true)
    (hnew : Discord.flareIdOf flare ∉ st.seen_flare_ids) :
    (Discord.flare_poll_task st (some flare) buildOk snapshot resolved
        fails).seen_flare_ids = insert (Discord.flareIdOf flare) st.seen_flare_ids ∧
    (Discord.flare_poll_task st (some flare) false snapshot resolved fails).deliveries = [] := by
  cases buildOk <;> simp [Discord.flare_poll_task, hne, hq, hnew]

/-- A cycle on a flare whose id was already seen changes nothing and sends
nothing. -/
theorem Discord.flare_poll_task_skips_seen
    (st : Discord.PollState) (flare : FlareRecord) (buildOk : Bool) (snapshot : List ℕ)
    (resolved fails : ℕ → Bool)
    (hseen : Discord.flareIdOf flare ∈ st.seen_flare_ids) :
    Discord.flare_poll_task st (some flare) buildOk snapshot resolved fails =
      ⟨st.seen_flare_ids, st.subscribed_flares, []⟩ := by
  simp only [Discord.flare_poll_task]
  split_ifs <;> simp_all

/-- A cycle on a non-qualifying flare changes nothing and sends nothing,
regardless of the deduplication state. -/
theorem Discord.flare_poll_task_skips_class
    (st : Discord.PollState) (flare : FlareRecord) (buildOk : Bool) (snapshot : List ℕ)
    (resolved fails : ℕ → Bool)
    (hq : Discord.is_m_or_x_class (pyOrS (Discord.flareClassOf flare) "") = false) :
    Discord.flare_poll_task st (some flare) buildOk snapshot resolved fails =
      ⟨st.seen_flare_ids, st.subscribed_flares, []⟩ := by
  simp only [Discord.flare_poll_task]
  split_ifs <;> simp_all

/-- Slack analogue of `flare_poll_task_fires`. -/
theorem Slack.spoll_task_fires
    (st : Slack.PollState) (flare : FlareRecord) (snapshot : List String)
    (hne : st.subscribed_channels ≠ ∅)
    (hq : Slack.is_m_or_x_class (pyOrS (Slack.flareClassOf flare) "") = true)
    (hnew : Slack.flareIdOf flare ∉ st.seen_flare_ids) :
    Slack.flare_poll_task st (some flare) true snapshot (fun _ => false) =
      ⟨insert (Slack.flareIdOf flare) st.seen_flare_ids, st.subscribed_channels,
        snapshot.map (fun d => (d, Slack.blocksSeverity flare))⟩ := by
  simp [Slack.flare_poll_task, hne, hq, hnew, Slack.sfanout_all_ok]

/-- Slack analogue of `flare_poll_task_accepts`. -/
theorem Slack.spoll_task_accepts
    (st : Slack.PollState) (flare : FlareRecord) (buildOk : Bool) (snapshot : List String)
    (fails : String → Bool)
    (hne : st.subscribed_channels ≠ ∅)
    (hq : Slack.is_m_or_x_class (pyOrS (Slack.flareClassOf flare) "") = true)
    (hnew : Slack.flareIdOf flare ∉ st.seen_flare_ids) :
    (Slack.flare_poll_task st (some flare) buildOk snapshot
        fails).seen_flare_ids = insert (Slack.flareIdOf flare) st.seen_flare_ids ∧
    (Slack.flare_poll_task st (some flare) false snapshot fails).deliveries = [] := by
  cases buildOk <;> simp [Slack.flare_poll_task, hne, hq, hnew]

/-- Slack analogue of `flare_poll_task_skips_seen`. -/
theorem Slack.spoll_task_skips_seen
    (st : Slack.PollState) (flare : FlareRecord) (buildOk : Bool) (snapshot : List String)
    (fails : String → Bool)
    (hseen : Slack.flareIdOf flare ∈ st.seen_flare_ids) :
    Slack.flare_poll_task st (some flare) buildOk snapshot fails =
      ⟨st.seen_flare_ids, st.subscribed_channels, []⟩ := by
  simp only [Slack.flare_poll_task]
  split_ifs <;> simp_all

/-- Slack analogue of `flare_poll_task_skips_class`. -/
theorem Slack.spoll_task_skips_class
    (st : Slack.PollState) (flare : FlareRecord) (buildOk : Bool) (snapshot : List String)
    (fails : String → Bool)
    (hq : Slack.is_m_or_x_class (pyOrS (Slack.flareClassOf flare) "") = false) :
    Slack.flare_poll_task st (some flare) buildOk snapshot fails =
      ⟨st.seen_flare_ids, st.subscribed_channels, []⟩ := by
  simp only [Slack.flare_poll_task]
  split_ifs <;> simp_all

/-- No Slack cycle ever mutates the subscription set: `_send_message`
swallows the delivery error. -/
theorem Slack.flare_poll_task_subs_unchanged
    (st : Slack.PollState) (fetched : Option FlareRecord) (buildOk : Bool)
    (snapshot : List String) (fails : String → Bool) :
    (Slack.flare_poll_task st fetched buildOk snapshot
        fails).subscribed_channels = st.subscribed_channels := by
  cases fetched <;> simp only [Slack.flare_poll_task] <;> split_ifs <;> rfl

/-- The Discord daily tick fires iff there are digest subscribers, the
local time is in the hour-13 window, and the marker differs from today. -/
theorem Discord.daily_fires_iff
    (st : Discord.DailyState) (hour minute : ℕ) (today : String) (buildOk : Bool)
    (snapshot : List ℕ) (resolved fails : ℕ → Bool) :
    (Discord.daily_summary_task st hour minute today buildOk snapshot resolved
        fails).fired = true ↔
      (st.subscribed_daily ≠ ∅ ∧ hour = 13 ∧ minute < 5 ∧
        st.last_daily_date ≠ some today) := by
  unfold Discord.daily_summary_task
  split_ifs <;> simp_all

/-- A fired Discord daily tick writes the marker, whatever the build and
send outcomes were. -/
theorem Discord.daily_marker_of_fired
    (st : Discord.DailyState) (hour minute : ℕ) (today : String) (buildOk : Bool)
    (snapshot : List ℕ) (resolved fails : ℕ → Bool)
    (hf : (Discord.daily_summary_task st hour minute today buildOk snapshot resolved
        fails).fired = true) :
    (Discord.daily_summary_task st hour minute today buildOk snapshot resolved
        fails).last_daily_date = some today := by
  unfold Discord.daily_summary_task at *
  split_ifs at hf ⊢ <;> simp_all

/-- The Slack daily tick fires iff the local time is in the hour-17 window,
the marker differs from today, and there are digest subscribers. -/
theorem Slack.sdaily_fires_iff
    (st : Slack.DailyState) (hour minute : ℕ) (today : String) (buildOk : Bool)
    (snapshot : List String) (fails : String → Bool) :
    (Slack.daily_summary_task st hour minute today buildOk snapshot fails).fired = true ↔
      (hour = 17 ∧ minute < 5 ∧ st.last_daily_date ≠ some today ∧
        st.subscribed_daily ≠ ∅) := by
  unfold Slack.daily_summary_task
  split_ifs <;> simp_all

/-- A fired Slack daily tick writes the marker. -/
theorem Slack.sdaily_marker_of_fired
    (st : Slack.DailyState) (hour minute : ℕ) (today : String) (buildOk : Bool)
    (snapshot : List String) (fails : String → Bool)
    (hf : (Slack.daily_summary_task st hour minute today buildOk snapshot fails).fired = true) :
    (Slack.daily_summary_task st hour minute today buildOk snapshot
        fails).last_daily_date = some today := by
  unfold Slack.daily_summary_task at *
  split_ifs at hf ⊢ <;> simp_all

/-- Number of occurrences of a delivery in a delivery list (destinations are
channel ids: integers for Discord, strings for Slack). -/
def countOcc {δ : Type} [DecidableEq δ] (p : δ × String) : List (δ × String) → ℕ
  | [] => 0
  | q :: t => (if q = p then 1 else 0) + countOcc p t

theorem countOcc_map_not_mem {δ : Type} [DecidableEq δ] (cs : String) (d : δ)
    (t : List δ) (h : d ∉ t) :
    countOcc (d, cs) (t.map (fun x => (x, cs))) = 0 := by
  induction t with
  | nil => rfl
  | cons a r ih =>
    have hne : a ≠ d := fun had => h (had ▸ List.mem_cons_self a r)
    have hnr : d ∉ r := fun hdr => h (List.mem_cons_of_mem a hdr)
    simp [countOcc, Prod.ext_iff, hne, ih hnr]

/-- On a duplicate-free snapshot, each destination occurs exactly once in
the delivery list produced by mapping a payload over it. -/
theorem countOcc_map_nodup {δ : Type} [DecidableEq δ] (cs : String) (d : δ)
    (snapshot : List δ) (hnd : snapshot.Nodup) (hmem : d ∈ snapshot) :
    countOcc (d, cs) (snapshot.map (fun x => (x, cs))) = 1 := by
  induction snapshot with
  | nil => cases hmem
  | cons a t ih =>
    rcases List.nodup_cons.mp hnd with ⟨hna, hnt⟩
    rcases List.mem_cons.mp hmem with rfl | hmem2
    · simp [countOcc, countOcc_map_not_mem cs d t hna]
    · have hne : a ≠ d := fun had => hna (had ▸ hmem2)
      simp [countOcc, Prod.ext_iff, hne, ih hnt hmem2]

/-! Claim theorems. -/

/-- C6: for every fetch call, a transport error, a malformed (non-list)
payload, or an empty result yields the call's no-data value (`none` for the
latest flare, `[]` for forecast and alerts), returned normally; the
embedded fetchers are total functions, so no exception propagates to a
scheduler loop or command handler. -/
theorem C6_fetch_no_data :
    (∀ e : Unit, Discord.fetch_latest_flare (Except.error e) = none) ∧
    Discord.fetch_latest_flare (Except.ok FetchPayload.nonList) = none ∧
    Discord.fetch_latest_flare (Except.ok (FetchPayload.list [])) = none ∧
    (∀ e : Unit, Discord.fetch_flare_forecast (Except.error e) = []) ∧
    Discord.fetch_flare_forecast (Except.ok FetchPayload.nonList) = [] ∧
    Discord.fetch_flare_forecast (Except.ok (FetchPayload.list [])) = [] ∧
    (∀ (limit : ℕ) (e : Unit), Discord.fetch_alerts limit (Except.error e) = []) ∧
    (∀ limit : ℕ, Discord.fetch_alerts limit (Except.ok FetchPayload.nonList) = []) ∧
    (∀ limit : ℕ, Discord.fetch_alerts limit (Except.ok (FetchPayload.list [])) = []) := by
  refine ⟨fun _ => rfl, rfl, rfl, fun _ => rfl, rfl, rfl, fun _ _ => rfl, fun _ => rfl,
    fun limit => ?_⟩
  unfold Discord.fetch_alerts
  split_ifs <;> simp

/-- C9: subscribing the same destination twice leaves the subscription set
equal to subscribing it once, and unsubscribing a non-member leaves the set
unchanged and replies that the channel was not subscribed — in both
adapters. -/
theorem C9_subscribe_idempotent_unsubscribe_noop
    (subs : Finset ℕ) (d : ℕ) (ssubs : Finset String) (c : String) :
    (Discord.subscribe_flares_cmd (Discord.subscribe_flares_cmd subs d).1 d =
      Discord.subscribe_flares_cmd subs d) ∧
    (d ∉ subs → Discord.unsubscribe_flares_cmd subs d = (subs, CmdReply.notSubscribed)) ∧
    (Slack.subscribe_flares_cmd (Slack.subscribe_flares_cmd ssubs c).1 c =
      Slack.subscribe_flares_cmd ssubs c) ∧
    (c ∉ ssubs → Slack.unsubscribe_flares_cmd ssubs c = (ssubs, CmdReply.notSubscribed)) := by
  refine ⟨?_, fun h => ?_, ?_, fun h => ?_⟩
  · simp [Discord.subscribe_flares_cmd]
  · simp [Discord.unsubscribe_flares_cmd, h]
  · simp [Slack.subscribe_flares_cmd]
  · simp [Slack.unsubscribe_flares_cmd, h]

/-- Witness for C9 at a concrete non-member. -/
theorem C9_subscribe_idempotent_unsubscribe_noop_witness :
    Discord.unsubscribe_flares_cmd (∅ : Finset ℕ) 1 = (∅, CmdReply.notSubscribed) ∧
    Slack.unsubscribe_flares_cmd (∅ : Finset String) "C1" = (∅, CmdReply.notSubscribed) :=
  ⟨(C9_subscribe_idempotent_unsubscribe_noop ∅ 1 ∅ "C1").2.1 (by decide),
   (C9_subscribe_idempotent_unsubscribe_noop ∅ 1 ∅ "C1").2.2.2 (by decide)⟩

/-- C5: a failing delivery is caught, every snapshot destination is still
attempted, non-failing destinations receive the message, and at most the
failing destinations are removed from the subscription set (Discord
removes exactly them, Slack removes none — "at most" holds for both). -/
theorem C5_delivery_failure_isolated
    (snapshot : List ℕ) (subs : Finset ℕ) (fails : ℕ → Bool)
    (hsnap : snapshot.toFinset = subs) :
    (Discord.fanout snapshot subs (fun _ => true) fails).attempted = snapshot ∧
    (Discord.fanout snapshot subs (fun _ => true) fails).delivered =
      snapshot.filter (fun d => !fails d) ∧
    (∀ d ∈ subs, fails d = false →
      d ∈ (Discord.fanout snapshot subs (fun _ => true) fails).subs ∧
        d ∈ (Discord.fanout snapshot subs (fun _ => true) fails).delivered) ∧
    (∀ d, d ∈ subs → d ∉ (Discord.fanout snapshot subs (fun _ => true) fails).subs →
      fails d = true) ∧
    (∀ (sn : List String) (sf : String → Bool),
      (Slack.fanout sn sf).attempted = sn ∧
      (Slack.fanout sn sf).delivered = sn.filter (fun d => !sf d)) ∧
    (∀ (st : Slack.PollState) (fetched : Option FlareRecord) (buildOk : Bool)
        (sn : List String) (sf : String → Bool),
      (Slack.flare_poll_task st fetched buildOk sn sf).subscribed_channels =
        st.subscribed_channels) := by
  refine ⟨?_, ?_, ?_, ?_, ?_, ?_⟩
  · unfold Discord.fanout
    rw [Discord.fanout_foldl_attempted]
    simp
  · unfold Discord.fanout
    rw [Discord.fanout_foldl_delivered]
    simp
  · intro d hd hf
    constructor
    · unfold Discord.fanout
      rw [Discord.fanout_foldl_subs]
      simp [hf, hd]
    · unfold Discord.fanout
      rw [Discord.fanout_foldl_delivered]
      have : d ∈ snapshot := by
        rw [← List.mem_toFinset, hsnap]
        exact hd
      simp [hf, this]
  · intro d hd hmem
    unfold Discord.fanout at hmem
    rw [Discord.fanout_foldl_subs] at hmem
    simp [hd] at hmem
    exact hmem.2
  · intro sn sf
    constructor
    · unfold Slack.fanout
      rw [Slack.sfanout_foldl_attempted]
      simp
    · unfold Slack.fanout
      rw [Slack.sfanout_foldl_delivered]
      simp
  · exact Slack.flare_poll_task_subs_unchanged

/-- Witness for C5: destinations 1 and 2 subscribed, delivery to 1 fails:
both are attempted, 2 still receives and stays subscribed. -/
theorem C5_delivery_failure_isolated_witness :
    (Discord.fanout [1, 2] {1, 2} (fun _ => true) (fun d => d == 1)).attempted = [1, 2] ∧
    2 ∈ (Discord.fanout [1, 2] {1, 2} (fun _ => true) (fun d => d == 1)).subs ∧
    2 ∈ (Discord.fanout [1, 2] {1, 2} (fun _ => true) (fun d => d == 1)).delivered := by
  have h := C5_delivery_failure_isolated [1, 2] {1, 2} (fun d => d == 1) (by decide)
  exact ⟨h.1, (h.2.2.1 2 (by decide) (by decide)).1, (h.2.2.1 2 (by decide) (by decide)).2⟩

/-- C2 is false on the code: both poll tasks add the event id to
`seen_flare_ids` *before* computing the outbound message.  Concretely: a
new qualifying M5.0 record with a failing message build produces zero
deliveries, yet its event id is already in the seen set (Discord task
shown; the Slack task has the same line order). -/
theorem C2_counterexample :
    (Discord.flare_poll_task ⟨∅, {1}⟩
        (some ⟨some "M5.0", none, some "2025-01-10T14:32:00Z", none, none, none⟩)
        false [1] (fun _ => true) (fun _ => false)).deliveries = [] ∧
    "2025-01-10T14:32:00Z_M5.0" ∈
      (Discord.flare_poll_task ⟨∅, {1}⟩
        (some ⟨some "M5.0", none, some "2025-01-10T14:32:00Z", none, none, none⟩)
        false [1] (fun _ => true) (fun _ => false)).seen_flare_ids := by decide

/-- C2 (amended): in every poll cycle on a new qualifying flare, the accept
step (inserting the id into the seen set) is performed *before* the
outbound message is computed: the id ends up marked as seen whether or not
the message build succeeds, and when the build fails the event is dropped
(no delivery, id still accepted).  Holds for both adapters. -/
theorem C2_amended_accept_precedes_build
    (st : Discord.PollState) (flare : FlareRecord) (snapshot : List ℕ)
    (resolved fails : ℕ → Bool)
    (hne : st.subscribed_flares ≠ ∅)
    (hq : Discord.is_m_or_x_class (pyOrS (Discord.flareClassOf flare) "") = true)
    (hnew : Discord.flareIdOf flare ∉ st.seen_flare_ids)
    (sst : Slack.PollState) (ssnapshot : List String) (sfails : String → Bool)
    (hsne : sst.subscribed_channels ≠ ∅)
    (hsnew : Slack.flareIdOf flare ∉ sst.seen_flare_ids) :
    (∀ buildOk, Discord.flareIdOf flare ∈
      (Discord.flare_poll_task st (some flare) buildOk snapshot resolved
        fails).seen_flare_ids) ∧
    (Discord.flare_poll_task st (some flare) false snapshot resolved fails).deliveries = [] ∧
    (∀ buildOk, Slack.flareIdOf flare ∈
      (Slack.flare_poll_task sst (some flare) buildOk ssnapshot sfails).seen_flare_ids) ∧
    (Slack.flare_poll_task sst (some flare) false ssnapshot sfails).deliveries = [] := by
  have hsq : Slack.is_m_or_x_class (pyOrS (Slack.flareClassOf flare) "") = true := hq
  refine ⟨fun buildOk => ?_, ?_, fun buildOk => ?_, ?_⟩
  · rw [(Discord.flare_poll_task_accepts st flare buildOk snapshot resolved fails
      hne hq hnew).1]
    exact Finset.mem_insert_self _ _
  · exact (Discord.flare_poll_task_accepts st flare false snapshot resolved fails
      hne hq hnew).2
  · rw [(Slack.spoll_task_accepts sst flare buildOk ssnapshot sfails
      hsne hsq hsnew).1]
    exact Finset.mem_insert_self _ _
  · exact (Slack.spoll_task_accepts sst flare false ssnapshot sfails
      hsne hsq hsnew).2

/-- Witness for the amended C2 at the concrete M5.0 record. -/
theorem C2_amended_accept_precedes_build_witness :
    "2025-01-10T14:32:00Z_M5.0" ∈
      (Discord.flare_poll_task ⟨∅, {1}⟩
        (some ⟨some "M5.0", none, some "2025-01-10T14:32:00Z", none, none, none⟩)
        true [1] (fun _ => true) (fun _ => false)).seen_flare_ids ∧
    (Slack.flare_poll_task ⟨∅, {"C1"}⟩
        (some ⟨some "M5.0", none, some "2025-01-10T14:32:00Z", none, none, none⟩)
        false ["C1"] (fun _ => false)).deliveries = [] := by
  have h := C2_amended_accept_precedes_build ⟨∅, {1}⟩
    ⟨some "M5.0", none, some "2025-01-10T14:32:00Z", none, none, none⟩
    [1] (fun _ => true) (fun _ => false) (by decide) (by decide) (by decide)
    ⟨∅, {"C1"}⟩ ["C1"] (fun _ => false) (by decide) (by decide)
  exact ⟨h.1 true, h.2.2.2⟩

/-- C10: a fetched qualifying flare record with none of the timestamp
fields still triggers notification of the subscribers, and its
deduplication id is the missing-value placeholder "None" concatenated with
the class string; hence any later timestamp-less record with the same class
string maps to the same id and is suppressed as already seen.  Established
for both poll tasks (Discord's `flare_poll_task` and Slack's
`_flare_poll_task`). -/
theorem C10_missing_timestamps_use_placeholder
    (st : Discord.PollState) (f g : FlareRecord) (snapshot : List ℕ)
    (hsnapset : snapshot.toFinset = st.subscribed_flares)
    (hsnapne : snapshot ≠ [])
    (hq : Discord.is_m_or_x_class (pyOrS (Discord.flareClassOf f) "") = true)
    (hft1 : f.max_time = none) (hft2 : f.time_tag = none) (hft3 : f.begin_time = none)
    (hgt1 : g.max_time = none) (hgt2 : g.time_tag = none) (hgt3 : g.begin_time = none)
    (hclass : Discord.flareClassOf g = Discord.flareClassOf f)
    (hnew : Discord.flareIdOf f ∉ st.seen_flare_ids)
    (sst : Slack.PollState) (ssnapshot : List String)
    (hssnapset : ssnapshot.toFinset = sst.subscribed_channels)
    (hssnapne : ssnapshot ≠ [])
    (hsnew : Slack.flareIdOf f ∉ sst.seen_flare_ids) :
    Discord.flareIdOf f = "None_" ++ fStr (Discord.flareClassOf f) ∧
    (Discord.flare_poll_task st (some f) true snapshot (fun _ => true)
      (fun _ => false)).deliveries ≠ [] ∧
    Discord.flareIdOf g = Discord.flareIdOf f ∧
    (Discord.flare_poll_task
        ⟨(Discord.flare_poll_task st (some f) true snapshot (fun _ => true)
            (fun _ => false)).seen_flare_ids,
         (Discord.flare_poll_task st (some f) true snapshot (fun _ => true)
            (fun _ => false)).subscribed_flares⟩
        (some g) true snapshot (fun _ => true) (fun _ => false)).deliveries = [] ∧
    Slack.flareIdOf f = "None_" ++ fStr (Slack.flareClassOf f) ∧
    (Slack.flare_poll_task sst (some f) true ssnapshot
      (fun _ => false)).deliveries ≠ [] ∧
    Slack.flareIdOf g = Slack.flareIdOf f ∧
    (Slack.flare_poll_task
        ⟨(Slack.flare_poll_task sst (some f) true ssnapshot
            (fun _ => false)).seen_flare_ids,
         (Slack.flare_poll_task sst (some f) true ssnapshot
            (fun _ => false)).subscribed_channels⟩
        (some g) true ssnapshot (fun _ => false)).deliveries = [] := by
  have hne : st.subscribed_flares ≠ ∅ := by
    rw [← hsnapset]
    simpa using hsnapne
  have htf : Discord.flareTimeOf f = none := by
    unfold Discord.flareTimeOf
    rw [hft1, hft2, hft3]
    rfl
  have htg : Discord.flareTimeOf g = none := by
    unfold Discord.flareTimeOf
    rw [hgt1, hgt2, hgt3]
    rfl
  have hid : Discord.flareIdOf f = "None_" ++ fStr (Discord.flareClassOf f) := by
    unfold Discord.flareIdOf
    rw [htf]
    rfl
  have hidg : Discord.flareIdOf g = Discord.flareIdOf f := by
    unfold Discord.flareIdOf
    rw [htf, htg, hclass]
  have hrun := Discord.flare_poll_task_fires st f snapshot hne hq hnew
  have hsne : sst.subscribed_channels ≠ ∅ := by
    rw [← hssnapset]
    simpa using hssnapne
  have hsq : Slack.is_m_or_x_class (pyOrS (Slack.flareClassOf f) "") = true := hq
  have hsid : Slack.flareIdOf f = "None_" ++ fStr (Slack.flareClassOf f) := hid
  have hsidg : Slack.flareIdOf g = Slack.flareIdOf f := hidg
  have hsrun := Slack.spoll_task_fires sst f ssnapshot hsne hsq hsnew
  refine ⟨hid, ?_, hidg, ?_, hsid, ?_, hsidg, ?_⟩
  · rw [hrun]
    simpa using hsnapne
  · rw [hrun]
    refine (congrArg Discord.PollResult.deliveries
      (Discord.flare_poll_task_skips_seen _ g true snapshot _ _ ?_))
    rw [hidg]
    exact Finset.mem_insert_self _ _
  · rw [hsrun]
    simpa using hssnapne
  · rw [hsrun]
    refine (congrArg Slack.PollResult.deliveries
      (Slack.spoll_task_skips_seen _ g true ssnapshot _ ?_))
    rw [hsidg]
    exact Finset.mem_insert_self _ _

/-- Witness for C10: an X1.0 record with no timestamp fields notifies the
single subscriber and a second identical-class timestamp-less record is
suppressed — in both adapters. -/
theorem C10_missing_timestamps_use_placeholder_witness :
    Discord.flareIdOf ⟨some "X1.0", none, none, none, none, none⟩ = "None_X1.0" ∧
    (Discord.flare_poll_task
        ⟨{"None_X1.0"}, {1}⟩
        (some ⟨some "X1.0", none, none, none, none, none⟩)
        true [1] (fun _ => true) (fun _ => false)).deliveries = [] ∧
    Slack.flareIdOf ⟨some "X1.0", none, none, none, none, none⟩ = "None_X1.0" ∧
    (Slack.flare_poll_task
        ⟨{"None_X1.0"}, {"C1"}⟩
        (some ⟨some "X1.0", none, none, none, none, none⟩)
        true ["C1"] (fun _ => false)).deliveries = [] := by
  have h := C10_missing_timestamps_use_placeholder ⟨∅, {1}⟩
    ⟨some "X1.0", none, none, none, none, none⟩
    ⟨some "X1.0", none, none, none, none, none⟩
    [1] (by decide) (by decide) (by decide) rfl rfl rfl rfl rfl rfl rfl (by decide)
    ⟨∅, {"C1"}⟩ ["C1"] (by decide) (by decide) (by decide)
  refine ⟨h.1.trans (by decide), ?_, h.2.2.2.2.1.trans (by decide), ?_⟩
  · have h4 := h.2.2.2.1
    have hseen : (Discord.flare_poll_task ⟨∅, {1}⟩
        (some ⟨some "X1.0", none, none, none, none, none⟩)
        true [1] (fun _ => true) (fun _ => false)).seen_flare_ids = {"None_X1.0"} := by decide
    have hsubs : (Discord.flare_poll_task ⟨∅, {1}⟩
        (some ⟨some "X1.0", none, none, none, none, none⟩)
        true [1] (fun _ => true) (fun _ => false)).subscribed_flares = {1} := by decide
    rw [hseen, hsubs] at h4
    exact h4
  · have hs4 := h.2.2.2.2.2.2.2
    have hsseen : (Slack.flare_poll_task ⟨∅, {"C1"}⟩
        (some ⟨some "X1.0", none, none, none, none, none⟩)
        true ["C1"] (fun _ => false)).seen_flare_ids = {"None_X1.0"} := by decide
    have hssubs : (Slack.flare_poll_task ⟨∅, {"C1"}⟩
        (some ⟨some "X1.0", none, none, none, none, none⟩)
        true ["C1"] (fun _ => false)).subscribed_channels = {"C1"} := by decide
    rw [hsseen, hssubs] at hs4
    exact hs4

/-- C1: a poll cycle with subscribers, a fetched record whose class string
parses as M or X, and an unseen event id delivers exactly one notification
to every currently flare-subscribed destination, carrying the record's
class string as the severity field; the next cycle on the identical record
delivers nothing; and a record whose class parses as B or C causes zero
deliveries regardless of the deduplication state.  Established for both
poll tasks (Discord's `flare_poll_task` and Slack's `_flare_poll_task`). -/
theorem C1_new_qualifying_flare_delivered_once
    (st : Discord.PollState) (flare : FlareRecord) (snapshot : List ℕ) (cs : String)
    (hcs : pyOrS (Discord.flareClassOf flare) "" = cs)
    (hnd : snapshot.Nodup) (hsnapset : snapshot.toFinset = st.subscribed_flares)
    (hne : st.subscribed_flares ≠ ∅)
    (hq : Discord.is_m_or_x_class cs = true)
    (hnew : Discord.flareIdOf flare ∉ st.seen_flare_ids)
    (sst : Slack.PollState) (ssnapshot : List String)
    (hsnd : ssnapshot.Nodup) (hssnapset : ssnapshot.toFinset = sst.subscribed_channels)
    (hsne : sst.subscribed_channels ≠ ∅)
    (hsnew : Slack.flareIdOf flare ∉ sst.seen_flare_ids) :
    (Discord.flare_poll_task st (some flare) true snapshot (fun _ => true)
        (fun _ => false)).deliveries = snapshot.map (fun d => (d, cs)) ∧
    (∀ d ∈ st.subscribed_flares,
      countOcc (d, cs) (Discord.flare_poll_task st (some flare) true snapshot (fun _ => true)
        (fun _ => false)).deliveries = 1) ∧
    (Discord.flare_poll_task
        ⟨(Discord.flare_poll_task st (some flare) true snapshot (fun _ => true)
            (fun _ => false)).seen_flare_ids,
         (Discord.flare_poll_task st (some flare) true snapshot (fun _ => true)
            (fun _ => false)).subscribed_flares⟩
        (some flare) true snapshot (fun _ => true) (fun _ => false)).deliveries = [] ∧
    (∀ (seen : Finset String) (subs2 : Finset ℕ) (g : FlareRecord) (lq : Char)
        (b : Bool) (sn : List ℕ) (r fl : ℕ → Bool),
      Discord.letterOf (pyOrS (Discord.flareClassOf g) "") = some lq →
      (lq = 'B' ∨ lq = 'C') →
      (Discord.flare_poll_task ⟨seen, subs2⟩ (some g) b sn r fl).deliveries = []) ∧
    (Slack.flare_poll_task sst (some flare) true ssnapshot
        (fun _ => false)).deliveries = ssnapshot.map (fun d => (d, cs)) ∧
    (∀ d ∈ sst.subscribed_channels,
      countOcc (d, cs) (Slack.flare_poll_task sst (some flare) true ssnapshot
        (fun _ => false)).deliveries = 1) ∧
    (Slack.flare_poll_task
        ⟨(Slack.flare_poll_task sst (some flare) true ssnapshot
            (fun _ => false)).seen_flare_ids,
         (Slack.flare_poll_task sst (some flare) true ssnapshot
            (fun _ => false)).subscribed_channels⟩
        (some flare) true ssnapshot (fun _ => false)).deliveries = [] ∧
    (∀ (sseen ssubs2 : Finset String) (g : FlareRecord) (lq : Char)
        (b : Bool) (sn : List String) (fl : String → Bool),
      Slack.letterOf (pyOrS (Slack.flareClassOf g) "") = some lq →
      (lq = 'B' ∨ lq = 'C') →
      (Slack.flare_poll_task ⟨sseen, ssubs2⟩ (some g) b sn fl).deliveries = []) := by
  have hq' : Discord.is_m_or_x_class (pyOrS (Discord.flareClassOf flare) "") = true := by
    rw [hcs]; exact hq
  have hsev : Discord.embedSeverity flare = cs :=
    (Discord.embedSeverity_eq_class flare hq').trans hcs
  have hrun := Discord.flare_poll_task_fires st flare snapshot hne hq' hnew
  have hscs : pyOrS (Slack.flareClassOf flare) "" = cs := hcs
  have hsq' : Slack.is_m_or_x_class (pyOrS (Slack.flareClassOf flare) "") = true := hq'
  have hssev : Slack.blocksSeverity flare = cs :=
    (Slack.blocksSeverity_eq_class flare hsq').trans hscs
  have hsrun := Slack.spoll_task_fires sst flare ssnapshot hsne hsq' hsnew
  refine ⟨?_, ?_, ?_, ?_, ?_, ?_, ?_, ?_⟩
  · rw [hrun, hsev]
  · intro d hd
    rw [hrun, hsev]
    have hmem : d ∈ snapshot := by
      rw [← List.mem_toFinset, hsnapset]
      exact hd
    exact countOcc_map_nodup cs d snapshot hnd hmem
  · rw [hrun]
    exact congrArg Discord.PollResult.deliveries
      (Discord.flare_poll_task_skips_seen _ flare true snapshot _ _
        (Finset.mem_insert_self _ _))
  · intro seen subs2 g lq b sn r fl hparse hlq
    have hqf : Discord.is_m_or_x_class (pyOrS (Discord.flareClassOf g) "") = false := by
      unfold Discord.is_m_or_x_class
      rw [hparse]
      rcases hlq with h | h <;> subst h <;> rfl
    exact congrArg Discord.PollResult.deliveries
      (Discord.flare_poll_task_skips_class _ g b sn r fl hqf)
  · rw [hsrun, hssev]
  · intro d hd
    rw [hsrun, hssev]
    have hmem : d ∈ ssnapshot := by
      rw [← List.mem_toFinset, hssnapset]
      exact hd
    exact countOcc_map_nodup cs d ssnapshot hsnd hmem
  · rw [hsrun]
    exact congrArg Slack.PollResult.deliveries
      (Slack.spoll_task_skips_seen _ flare true ssnapshot _
        (Finset.mem_insert_self _ _))
  · intro sseen ssubs2 g lq b sn fl hparse hlq
    have hqf : Slack.is_m_or_x_class (pyOrS (Slack.flareClassOf g) "") = false := by
      unfold Slack.is_m_or_x_class
      rw [hparse]
      rcases hlq with h | h <;> subst h <;> rfl
    exact congrArg Slack.PollResult.deliveries
      (Slack.spoll_task_skips_class _ g b sn fl hqf)

/-- Witness for C1: the X2.5 record of end-to-end scenario 1, one
subscriber per adapter; one delivery with severity "X2.5" on each platform,
then silence on the identical record, and a C1.0 record delivers nothing. -/
theorem C1_new_qualifying_flare_delivered_once_witness :
    (Discord.flare_poll_task ⟨∅, {1}⟩
        (some ⟨some "X2.5", none, some "2025-01-10T14:32:00Z", none, none, some "16"⟩)
        true [1] (fun _ => true) (fun _ => false)).deliveries = [(1, "X2.5")] ∧
    (Discord.flare_poll_task ⟨{"2025-01-10T14:32:00Z_X2.5"}, {1}⟩
        (some ⟨some "C1.0", none, some "2025-01-10T14:32:00Z", none, none, some "16"⟩)
        true [1] (fun _ => true) (fun _ => false)).deliveries = [] ∧
    (Slack.flare_poll_task ⟨∅, {"C1"}⟩
        (some ⟨some "X2.5", none, some "2025-01-10T14:32:00Z", none, none, some "16"⟩)
        true ["C1"] (fun _ => false)).deliveries = [("C1", "X2.5")] ∧
    (Slack.flare_poll_task ⟨{"2025-01-10T14:32:00Z_X2.5"}, {"C1"}⟩
        (some ⟨some "C1.0", none, some "2025-01-10T14:32:00Z", none, none, some "16"⟩)
        true ["C1"] (fun _ => false)).deliveries = [] := by
  have h := C1_new_qualifying_flare_delivered_once ⟨∅, {1}⟩
    ⟨some "X2.5", none, some "2025-01-10T14:32:00Z", none, none, some "16"⟩
    [1] "X2.5" (by decide) (by decide) (by decide) (by decide) (by decide) (by decide)
    ⟨∅, {"C1"}⟩ ["C1"] (by decide) (by decide) (by decide) (by decide)
  refine ⟨h.1, ?_, h.2.2.2.2.1, ?_⟩
  · exact h.2.2.2.1 {"2025-01-10T14:32:00Z_X2.5"} {1}
      ⟨some "C1.0", none, some "2025-01-10T14:32:00Z", none, none, some "16"⟩
      'C' true [1] (fun _ => true) (fun _ => false) (by decide) (Or.inr rfl)
  · exact h.2.2.2.2.2.2.2 {"2025-01-10T14:32:00Z_X2.5"} {"C1"}
      ⟨some "C1.0", none, some "2025-01-10T14:32:00Z", none, none, some "16"⟩
      'C' true ["C1"] (fun _ => false) (by decide) (Or.inr rfl)

/-- A Discord daily tick whose marker already holds today's date never
fires. -/
theorem Discord.daily_no_refire
    (st : Discord.DailyState) (hour minute : ℕ) (today : String) (buildOk : Bool)
    (snapshot : List ℕ) (resolved fails : ℕ → Bool)
    (hmarker : st.last_daily_date = some today) :
    (Discord.daily_summary_task st hour minute today buildOk snapshot resolved
      fails).fired = false := by
  cases hf : (Discord.daily_summary_task st hour minute today buildOk snapshot resolved
      fails).fired
  · rfl
  · exact absurd hmarker
      ((Discord.daily_fires_iff st hour minute today buildOk snapshot resolved fails).mp
        hf).2.2.2

/-- A Slack daily tick whose marker already holds today's date never
fires. -/
theorem Slack.sdaily_no_refire
    (st : Slack.DailyState) (hour minute : ℕ) (today : String) (buildOk : Bool)
    (snapshot : List String) (fails : String → Bool)
    (hmarker : st.last_daily_date = some today) :
    (Slack.daily_summary_task st hour minute today buildOk snapshot fails).fired = false := by
  cases hf : (Slack.daily_summary_task st hour minute today buildOk snapshot fails).fired
  · rfl
  · exact absurd hmarker
      ((Slack.sdaily_fires_iff st hour minute today buildOk snapshot fails).mp hf).2.2.1

/-- C4 is false as an "exactly when" statement: a tick inside the window
with a differing marker but no digest subscribers fires nothing and leaves
the marker unwritten (Discord tick at local 13:00 with an empty
subscription set shown; the Slack task guards on subscribers the same
way). -/
theorem C4_counterexample :
    (Discord.daily_summary_task ⟨none, ∅⟩ 13 0 "2025-01-10" true []
        (fun _ => true) (fun _ => false)).fired = false ∧
    (Discord.daily_summary_task ⟨none, ∅⟩ 13 0 "2025-01-10" true []
        (fun _ => true) (fun _ => false)).last_daily_date = none := by decide

/-- C4 (amended): with at least one digest subscriber, each daily tick
fires exactly when the local time is inside the target window (hour 13 for
the Discord task, hour 17 for the Slack task) and the marker differs from
today's local date; a firing tick writes the marker (regardless of build or
fanout failures), any further tick on the same date does not re-fire, and a
tick on a different date inside the window (with subscribers remaining)
fires again. -/
theorem C4_amended_digest_once_per_date
    (st : Discord.DailyState) (hour minute : ℕ) (today : String) (buildOk : Bool)
    (snapshot : List ℕ) (resolved fails : ℕ → Bool)
    (sst : Slack.DailyState) (shour sminute : ℕ) (stoday : String) (sbuildOk : Bool)
    (ssnapshot : List String) (sfails : String → Bool) :
    (let r := Discord.daily_summary_task st hour minute today buildOk snapshot resolved fails
     (r.fired = true ↔
        (st.subscribed_daily ≠ ∅ ∧ hour = 13 ∧ minute < 5 ∧
          st.last_daily_date ≠ some today)) ∧
     (r.fired = true → r.last_daily_date = some today) ∧
     (∀ (h2 m2 : ℕ) (b2 : Bool) (sn2 : List ℕ) (r2 f2 : ℕ → Bool),
       r.fired = true →
       (Discord.daily_summary_task ⟨r.last_daily_date, r.subscribed_daily⟩ h2 m2 today
         b2 sn2 r2 f2).fired = false) ∧
     (∀ (today2 : String) (m2 : ℕ) (b2 : Bool) (sn2 : List ℕ) (r2 f2 : ℕ → Bool),
       r.fired = true → today2 ≠ today → m2 < 5 → r.subscribed_daily ≠ ∅ →
       (Discord.daily_summary_task ⟨r.last_daily_date, r.subscribed_daily⟩ 13 m2 today2
         b2 sn2 r2 f2).fired = true)) ∧
    (let sr := Slack.daily_summary_task sst shour sminute stoday sbuildOk ssnapshot sfails
     (sr.fired = true ↔
        (shour = 17 ∧ sminute < 5 ∧ sst.last_daily_date ≠ some stoday ∧
          sst.subscribed_daily ≠ ∅)) ∧
     (sr.fired = true → sr.last_daily_date = some stoday) ∧
     (∀ (h2 m2 : ℕ) (b2 : Bool) (sn2 : List String) (f2 : String → Bool),
       sr.fired = true →
       (Slack.daily_summary_task ⟨sr.last_daily_date, sr.subscribed_daily⟩ h2 m2 stoday
         b2 sn2 f2).fired = false) ∧
     (∀ (stoday2 : String) (m2 : ℕ) (b2 : Bool) (sn2 : List String) (f2 : String → Bool),
       sr.fired = true → stoday2 ≠ stoday → m2 < 5 → sr.subscribed_daily ≠ ∅ →
       (Slack.daily_summary_task ⟨sr.last_daily_date, sr.subscribed_daily⟩ 17 m2 stoday2
         b2 sn2 f2).fired = true)) := by
  dsimp only
  constructor
  · refine ⟨Discord.daily_fires_iff st hour minute today buildOk snapshot resolved fails,
      fun hf => Discord.daily_marker_of_fired st hour minute today buildOk snapshot
        resolved fails hf, ?_, ?_⟩
    · intro h2 m2 b2 sn2 r2 f2 hf
      exact Discord.daily_no_refire _ h2 m2 today b2 sn2 r2 f2
        (Discord.daily_marker_of_fired st hour minute today buildOk snapshot resolved
          fails hf)
    · intro today2 m2 b2 sn2 r2 f2 hf hd2 hm2 hne2
      refine (Discord.daily_fires_iff _ 13 m2 today2 b2 sn2 r2 f2).mpr ⟨hne2, rfl, hm2, ?_⟩
      rw [Discord.daily_marker_of_fired st hour minute today buildOk snapshot resolved
        fails hf]
      intro hcon
      exact hd2 (Option.some_injective _ hcon.symm)
  · refine ⟨Slack.sdaily_fires_iff sst shour sminute stoday sbuildOk ssnapshot sfails,
      fun hf => Slack.sdaily_marker_of_fired sst shour sminute stoday sbuildOk ssnapshot
        sfails hf, ?_, ?_⟩
    · intro h2 m2 b2 sn2 f2 hf
      exact Slack.sdaily_no_refire _ h2 m2 stoday b2 sn2 f2
        (Slack.sdaily_marker_of_fired sst shour sminute stoday sbuildOk ssnapshot sfails hf)
    · intro stoday2 m2 b2 sn2 f2 hf hd2 hm2 hne2
      refine (Slack.sdaily_fires_iff _ 17 m2 stoday2 b2 sn2 f2).mpr ⟨rfl, hm2, ?_, hne2⟩
      rw [Slack.sdaily_marker_of_fired sst shour sminute stoday sbuildOk ssnapshot sfails hf]
      intro hcon
      exact hd2 (Option.some_injective _ hcon.symm)

/-- Witness for the amended C4: a tick at local 13:00 on date D fires; the
immediately following tick on the same date does not. -/
theorem C4_amended_digest_once_per_date_witness :
    (Discord.daily_summary_task ⟨none, {1}⟩ 13 0 "2025-01-10" true [1]
        (fun _ => true) (fun _ => false)).fired = true ∧
    (Discord.daily_summary_task
        ⟨(Discord.daily_summary_task ⟨none, {1}⟩ 13 0 "2025-01-10" true [1]
            (fun _ => true) (fun _ => false)).last_daily_date,
         (Discord.daily_summary_task ⟨none, {1}⟩ 13 0 "2025-01-10" true [1]
            (fun _ => true) (fun _ => false)).subscribed_daily⟩
        13 1 "2025-01-10" true [1] (fun _ => true) (fun _ => false)).fired = false := by
  have h := C4_amended_digest_once_per_date ⟨none, {1}⟩ 13 0 "2025-01-10" true [1]
    (fun _ => true) (fun _ => false) ⟨none, {"C1"}⟩ 17 0 "2025-01-10" true ["C1"]
    (fun _ => false)
  have hf : (Discord.daily_summary_task ⟨none, {1}⟩ 13 0 "2025-01-10" true [1]
      (fun _ => true) (fun _ => false)).fired = true :=
    h.1.1.mpr ⟨by decide, rfl, by decide, by decide⟩
  exact ⟨hf, h.1.2.2.1 13 1 true [1] (fun _ => true) (fun _ => false) hf⟩

/-- A Discord poll cycle with no fetched record changes nothing. -/
theorem Discord.flare_poll_task_none
    (st : Discord.PollState) (buildOk : Bool) (snapshot : List ℕ)
    (resolved fails : ℕ → Bool) :
    Discord.flare_poll_task st none buildOk snapshot resolved fails =
      ⟨st.seen_flare_ids, st.subscribed_flares, []⟩ := by
  simp only [Discord.flare_poll_task]
  split_ifs <;> rfl

/-- A Slack poll cycle with no fetched record changes nothing. -/
theorem Slack.spoll_task_none
    (st : Slack.PollState) (buildOk : Bool) (snapshot : List String)
    (fails : String → Bool) :
    Slack.flare_poll_task st none buildOk snapshot fails =
      ⟨st.seen_flare_ids, st.subscribed_channels, []⟩ := by
  simp only [Slack.flare_poll_task]
  split_ifs <;> rfl

/-- C3 is false: the two adapters do not make all the same decisions.  At
the same local clock reading (13:00) with analogous nonempty subscription
states, the Discord daily task fires while the Slack daily task does not
(their windows are hour 13 versus hour 17); and on a failed flare delivery
the Discord poll task removes the destination from the subscription set
while the Slack poll task keeps it. -/
theorem C3_counterexample :
    ((Discord.daily_summary_task ⟨none, {1}⟩ 13 0 "2025-01-10" true [1]
        (fun _ => true) (fun _ => false)).fired = true ∧
     (Slack.daily_summary_task ⟨none, {"C1"}⟩ 13 0 "2025-01-10" true ["C1"]
        (fun _ => false)).fired = false) ∧
    ((Discord.flare_poll_task ⟨∅, {1}⟩
        (some ⟨some "M5.0", none, some "2025-01-10T14:32:00Z", none, none, none⟩)
        true [1] (fun _ => true) (fun _ => true)).subscribed_flares = ∅ ∧
     (Slack.flare_poll_task ⟨∅, {"C1"}⟩
        (some ⟨some "M5.0", none, some "2025-01-10T14:32:00Z", none, none, none⟩)
        true ["C1"] (fun _ => true)).subscribed_channels = {"C1"}) := by decide

/-- C3 (amended): the adapters share the classification and deduplication
core — identical parser, qualifier and event-id construction — and with no
delivery failures their poll cycles make the same notify/suppress decision
and produce the same seen-id set; but the digest windows differ (the
Discord task fires in the local hour-13 window, the Slack task in the
hour-17 window) and the delivery-failure policy differs (the Discord task
removes a destination whose send raised, the Slack task never mutates the
subscription set). -/
theorem C3_amended_adapters_compared :
    Slack.parse_flare_class = Discord.parse_flare_class ∧
    Slack.is_m_or_x_class = Discord.is_m_or_x_class ∧
    Slack.flareIdOf = Discord.flareIdOf ∧
    (∀ (seen : Finset String) (fetched : Option FlareRecord) (d : ℕ) (s : String),
      ((Discord.flare_poll_task ⟨seen, {d}⟩ fetched true [d] (fun _ => true)
          (fun _ => false)).deliveries ≠ [] ↔
        (Slack.flare_poll_task ⟨seen, {s}⟩ fetched true [s]
          (fun _ => false)).deliveries ≠ []) ∧
      (Discord.flare_poll_task ⟨seen, {d}⟩ fetched true [d] (fun _ => true)
          (fun _ => false)).seen_flare_ids =
        (Slack.flare_poll_task ⟨seen, {s}⟩ fetched true [s]
          (fun _ => false)).seen_flare_ids) ∧
    (∀ (st : Discord.DailyState) (hour minute : ℕ) (today : String) (buildOk : Bool)
        (snapshot : List ℕ) (resolved fails : ℕ → Bool),
      (Discord.daily_summary_task st hour minute today buildOk snapshot resolved
        fails).fired = true ↔
        (st.subscribed_daily ≠ ∅ ∧ hour = 13 ∧ minute < 5 ∧
          st.last_daily_date ≠ some today)) ∧
    (∀ (sst : Slack.DailyState) (hour minute : ℕ) (today : String) (buildOk : Bool)
        (snapshot : List String) (fails : String → Bool),
      (Slack.daily_summary_task sst hour minute today buildOk snapshot fails).fired = true ↔
        (hour = 17 ∧ minute < 5 ∧ sst.last_daily_date ≠ some today ∧
          sst.subscribed_daily ≠ ∅)) ∧
    (∀ (subs : Finset ℕ) (d : ℕ),
      (Discord.fanout [d] subs (fun _ => true) (fun _ => true)).subs = subs.erase d) ∧
    (∀ (st : Slack.PollState) (fetched : Option FlareRecord) (buildOk : Bool)
        (sn : List String) (sf : String → Bool),
      (Slack.flare_poll_task st fetched buildOk sn sf).subscribed_channels =
        st.subscribed_channels) := by
  refine ⟨rfl, rfl, rfl, ?_, Discord.daily_fires_iff, Slack.sdaily_fires_iff, ?_,
    Slack.flare_poll_task_subs_unchanged⟩
  · intro seen fetched d s
    cases fetched with
    | none =>
      rw [Discord.flare_poll_task_none, Slack.spoll_task_none]
      exact ⟨by simp, rfl⟩
    | some flare =>
      by_cases hq : Discord.is_m_or_x_class (pyOrS (Discord.flareClassOf flare) "") = true
      · by_cases hseen : Discord.flareIdOf flare ∈ seen
        · rw [Discord.flare_poll_task_skips_seen _ flare true [d] _ _ hseen,
            Slack.spoll_task_skips_seen _ flare true [s] _ hseen]
          exact ⟨by simp, rfl⟩
        · rw [Discord.flare_poll_task_fires ⟨seen, {d}⟩ flare [d]
              (Finset.singleton_ne_empty d) hq hseen,
            Slack.spoll_task_fires ⟨seen, {s}⟩ flare [s]
              (Finset.singleton_ne_empty s) hq hseen]
          exact ⟨by simp, rfl⟩
      · rw [Bool.not_eq_true] at hq
        rw [Discord.flare_poll_task_skips_class _ flare true [d] _ _ hq,
          Slack.spoll_task_skips_class _ flare true [s] _ hq]
        exact ⟨by simp, rfl⟩
  · intro subs d
    unfold Discord.fanout
    rw [Discord.fanout_foldl_subs]
    simp [Finset.erase_eq]

end SpaceWeather
